import Mathlib

/-
Verification development for the go-app user-registration service
(github.com/haidang666/go-app).

The embedding translates the request-to-persistence pipeline into Lean:
  - the User entity and its validation rule,
  - the transport DTOs and their validator rules,
  - the two sign-up use-case variants present in the source
    (one validating the request DTO itself, one taking a domain input),
  - the two HTTP handler variants,
  - the in-memory repository adapter,
  - the router dispatch and the server lifecycle manager.

External collaborators are modelled as oracle inputs:
  - the bcrypt hash call outcome is a parameter of type Except Err String
    (bcrypt salts randomly per call, so the outcome is an input of the run);
  - the uuid source of the adapter is a stream of identifiers together with
    a counter of identifiers already issued (uuid.New draws the next one);
  - the JSON decode outcome of the request body is a parameter of type
    Except Err Dto.
Calls the orchestrator makes to the repository Create operation are
recorded in a trace field, so that properties of the form "Create is never
invoked" are statements about the trace.
-/

namespace GoApp

/-- Errors are modelled by their message string (Go error values surface
through err.Error() at the transport boundary). -/
abbrev Err := String

/-- Identifiers issued by the uuid source, modelled as natural numbers. -/
abbrev Uuid := Nat

/-- Modelled from the spec: the syntactic email-format rule of the
validator library (tag email); the library source is outside the
repository. An email-shaped string contains exactly one at-sign, which is
neither the first nor the last character. -/
def isEmailFormat (s : String) : Bool :=
  let cs := s.toList
  cs.count '@' == 1 && cs.head? != some '@' && cs.getLast? != some '@'

/-- Validator rule required on a string variable: the zero value (empty
string) fails. -/
def requiredNonEmpty (s : String) : Bool :=
  s != ""

/-- Validator rule "required,email" as applied by validate.Var. -/
def validEmailVar (s : String) : Bool :=
  requiredNonEmpty s && isEmailFormat s

/-- Validator rule "required,min=5" as applied by validate.Var; min on a
string compares its character count. -/
def validPasswordVar (s : String) : Bool :=
  requiredNonEmpty s && decide (5 ≤ s.length)

/-- The domain entity (internal/domain/entity): id assigned by the
adapter, email, hashed password, and timestamps whose zero value models
the unset Go zero values. -/
structure User where
  id : Uuid := 0
  email : String := ""
  hashedPassword : String := ""
  createdAt : Option Nat := none
  updatedAt : Option Nat := none
deriving DecidableEq, Repr

/-- Modelled from the spec: the entity source file
internal/domain/entity/user_entity.go is not under src. The spec states
the self-validation rule: non-empty, email-shaped email; non-empty
hashedPassword. -/
def User.Validate (u : User) : Option Err :=
  if !validEmailVar u.email then some "entity email must be a valid email"
  else if !requiredNonEmpty u.hashedPassword then some "entity hashed password is required"
  else none

/-- Transport DTO of the module_route pipeline
(internal/domain/use_case/auth/dto.SignUpRequestDto). -/
structure SignUpRequestDto where
  email : String
  password : String
deriving DecidableEq, Repr

/-- SignUpRequestDto.Validate: validate.Var(Email, "required,email") then
validate.Var(Password, "required,min=5"); the first failing rule is
returned. -/
def SignUpRequestDto.Validate (req : SignUpRequestDto) : Option Err :=
  if !validEmailVar req.email then some "Email failed on required,email"
  else if !validPasswordVar req.password then some "Password failed on required,min=5"
  else none

/-- Domain input of the contract-based pipeline
(internal/domain/dto.SignUpInput). -/
structure SignUpInput where
  email : String
  password : String
deriving DecidableEq, Repr

/-- Modelled from the spec: the API DTO source file
internal/api/auth/sign_up_request.go is not under src. The spec states the
transport-level validation: email present and syntactically a valid email;
password present and at least 5 characters. -/
structure SignUpRequest where
  email : String
  password : String
deriving DecidableEq, Repr

/-- Modelled from the spec: transport-level validation of the API DTO,
same field rules as the DTO validator. -/
def SignUpRequest.Validate (req : SignUpRequest) : Option Err :=
  if !validEmailVar req.email then some "Email failed on required,email"
  else if !validPasswordVar req.password then some "Password failed on required,min=5"
  else none

/-- The uuid source backing uuid.New in the adapter: a stream of
identifiers and the count of identifiers already issued. Freshness of the
random draw is expressed as hypotheses on the stream where a theorem
needs it. -/
structure UuidGen where
  stream : Nat → Uuid
  count : Nat

/-- One uuid.New draw: the next identifier of the stream. -/
def UuidGen.new (g : UuidGen) : Uuid × UuidGen :=
  (g.stream g.count, ⟨g.stream, g.count + 1⟩)

/-- The in-memory repository adapter Create
(internal/infrastructure/repository/user_repository.go): builds a fresh
entity from a new uuid, the lowercased candidate email and the candidate
hashed password; never errors. Date fields keep their zero value. -/
def UserRepository.Create (g : UuidGen) (du : User) : UuidGen × User × Option Err :=
  let (newId, g2) := g.new
  (g2, { id := newId, email := du.email.toLower, hashedPassword := du.hashedPassword }, none)

/-- Result of one use-case run over repository state σ: the final state,
the trace of candidate entities handed to the repository Create operation,
and the returned value or error. -/
structure ExecResult (σ : Type) where
  state : σ
  createCalls : List User
  result : Except Err User
deriving Repr

/-- The contract-based SignUpUseCase.Execute (the variant importing
domain/contract and domain/dto): hash the password, build the unpersisted
entity, run entity validation, then call the repository Create; every
error returns immediately. The repository is any Create function over a
state σ, and hashResult is the outcome of the one bcrypt
GenerateFromPassword call. -/
def SignUpUseCase.ExecuteContract {σ : Type} (create : σ → User → σ × User × Option Err)
    (hashResult : Except Err String) (s : σ) (input : SignUpInput) : ExecResult σ :=
  match hashResult with
  | .error e => ⟨s, [], .error e⟩
  | .ok hashed =>
    let du : User := { email := input.email, hashedPassword := hashed }
    match du.Validate with
    | some e => ⟨s, [], .error e⟩
    | none =>
      match create s du with
      | (s2, _, some e) => ⟨s2, [du], .error e⟩
      | (s2, newUser, none) => ⟨s2, [du], .ok newUser⟩

/-- The DTO-validating SignUpUseCase.Execute (the variant importing
domain/repository and use_case/auth/dto): runs req.Validate first, then
proceeds as the contract-based variant on the req fields. -/
def SignUpUseCase.ExecuteDto {σ : Type} (create : σ → User → σ × User × Option Err)
    (hashResult : Except Err String) (s : σ) (req : SignUpRequestDto) : ExecResult σ :=
  match req.Validate with
  | some e => ⟨s, [], .error e⟩
  | none => SignUpUseCase.ExecuteContract create hashResult s ⟨req.email, req.password⟩

/-- The JSON body written by request.ToJSON: either the error object
map with key error, the serialized persisted entity, or plain text
(the health endpoint body). -/
inductive ResponseBody where
  | errorObj : String → ResponseBody
  | userObj : User → ResponseBody
  | text : String → ResponseBody
deriving DecidableEq, Repr

/-- An HTTP response: status code and body. -/
structure HttpResponse where
  status : Nat
  body : ResponseBody
deriving DecidableEq, Repr

/-- Result of one handler run over repository state σ: final state, the
trace of repository Create calls, and the response written. -/
structure HandlerResult (σ : Type) where
  state : σ
  createCalls : List User
  response : HttpResponse
deriving Repr

/-- AuthHandler.SignUp of the module_route pipeline
(internal/infrastructure/http/module_route/auth/handler.go): decode the
body into a SignUpRequestDto (decode outcome is the oracle input decoded,
produced by request.FromJSON), on decode error write 400 with the error
object; then run the DTO-validating use case; on error write 400 with the
error object; on success write 201 with the user. -/
def AuthHandler.SignUpModuleRoute {σ : Type} (create : σ → User → σ × User × Option Err)
    (hashResult : Except Err String) (decoded : Except Err SignUpRequestDto)
    (s : σ) : HandlerResult σ :=
  match decoded with
  | .error e => ⟨s, [], ⟨400, .errorObj e⟩⟩
  | .ok payload =>
    let r := SignUpUseCase.ExecuteDto create hashResult s payload
    match r.result with
    | .error e => ⟨r.state, r.createCalls, ⟨400, .errorObj e⟩⟩
    | .ok user => ⟨r.state, r.createCalls, ⟨201, .userObj user⟩⟩

/-- AuthHandler.SignUp of the handlers pipeline
(internal/infrastructure/http/handlers/auth): decode the body into the API
SignUpRequest, on decode error write 400; run payload.Validate, on error
write 400; convert to the domain SignUpInput and run the contract-based
use case; on error write 400; on success write 201 with the user. -/
def AuthHandler.SignUpHandlers {σ : Type} (create : σ → User → σ × User × Option Err)
    (hashResult : Except Err String) (decoded : Except Err SignUpRequest)
    (s : σ) : HandlerResult σ :=
  match decoded with
  | .error e => ⟨s, [], ⟨400, .errorObj e⟩⟩
  | .ok payload =>
    match payload.Validate with
    | some e => ⟨s, [], ⟨400, .errorObj e⟩⟩
    | none =>
      let input : SignUpInput := ⟨payload.email, payload.password⟩
      let r := SignUpUseCase.ExecuteContract create hashResult s input
      match r.result with
      | .error e => ⟨r.state, r.createCalls, ⟨400, .errorObj e⟩⟩
      | .ok user => ⟨r.state, r.createCalls, ⟨201, .userObj user⟩⟩

/-- HTTP method of a dispatched request. -/
inductive Method where
  | GET
  | POST
deriving DecidableEq, Repr

/-- The inline health handler of NewRouter: w.Write of the literal ok with
the implicit 200 status of net/http. -/
def healthResponse : HttpResponse :=
  ⟨200, .text "ok"⟩

/-- Route dispatch of NewRouter (infrastructure/http/router): GET /health
is served by the inline health handler; POST /api/v1/auth/sign-up is
served by the sign-up handler, whose response is passed in as the outcome
of that handler; any other pair is unrouted. The middleware chain
(RequestID, RealIP, Logger, Recoverer) does not alter a normally produced
response. -/
def NewRouter.dispatch (signUpResponse : HttpResponse) (m : Method) (path : String) :
    Option HttpResponse :=
  if m = Method.GET ∧ path = "/health" then some healthResponse
  else if m = Method.POST ∧ path = "/api/v1/auth/sign-up" then some signUpResponse
  else none

/-- The shutdown grace window of StartRestAPI, in seconds
(context.WithTimeout over 10*time.Second). -/
def shutdownTimeoutSeconds : Nat := 10

/-- What the listener goroutine forwards on the error channel: the
ListenAndServe error, unless it is nil or is http.ErrServerClosed
(closed by shutdown), which are swallowed. -/
def listenerForwards (err : Option Err) (isErrServerClosed : Bool) : Option Err :=
  match err with
  | none => none
  | some e => if isErrServerClosed then none else some e

/-- The first event the select of StartRestAPI observes: either the
cancellation context fires (carrying the outcome of the subsequent
server.Shutdown call under the 10 second window: none when shutdown
completes in time), or the listener goroutine reports a fatal error. -/
inductive LifecycleEvent where
  | ctxDone : Option Err → LifecycleEvent
  | listenerFatal : Err → LifecycleEvent
deriving DecidableEq, Repr

/-- StartRestAPI (internal/bootstrap, wire.go bundle): on cancellation,
shut down gracefully and return nil on success or the shutdown error
wrapped with the server shutdown prefix; on a fatal listener error, return
it unchanged. -/
def StartRestAPI : LifecycleEvent → Option Err
  | .ctxDone none => none
  | .ctxDone (some e) => some ("server shutdown: " ++ e)
  | .listenerFatal e => some e

/-! Characterization lemmas for the use-case variants and handlers. -/

theorem executeContract_hashError {σ : Type} (create : σ → User → σ × User × Option Err)
    (s : σ) (input : SignUpInput) (e : Err) :
    SignUpUseCase.ExecuteContract create (Except.error e) s input = ⟨s, [], Except.error e⟩ :=
  rfl

theorem executeContract_entityInvalid {σ : Type} (create : σ → User → σ × User × Option Err)
    (s : σ) (input : SignUpInput) (hs : String) (e : Err)
    (hv : User.Validate { email := input.email, hashedPassword := hs } = some e) :
    SignUpUseCase.ExecuteContract create (Except.ok hs) s input = ⟨s, [], Except.error e⟩ := by
  unfold SignUpUseCase.ExecuteContract
  simp only [hv]

theorem executeContract_entityValid {σ : Type} (create : σ → User → σ × User × Option Err)
    (s : σ) (input : SignUpInput) (hs : String)
    (hv : User.Validate { email := input.email, hashedPassword := hs } = none) :
    SignUpUseCase.ExecuteContract create (Except.ok hs) s input =
      ⟨(create s { email := input.email, hashedPassword := hs }).1,
       [{ email := input.email, hashedPassword := hs }],
       match (create s { email := input.email, hashedPassword := hs }).2.2 with
       | some e => Except.error e
       | none => Except.ok (create s { email := input.email, hashedPassword := hs }).2.1⟩ := by
  unfold SignUpUseCase.ExecuteContract
  simp only [hv]
  rcases hc : create s { email := input.email, hashedPassword := hs } with ⟨s2, nu, err⟩
  cases err <;> rfl

theorem executeDto_reqInvalid {σ : Type} (create : σ → User → σ × User × Option Err)
    (hashResult : Except Err String) (s : σ) (req : SignUpRequestDto) (e : Err)
    (hv : req.Validate = some e) :
    SignUpUseCase.ExecuteDto create hashResult s req = ⟨s, [], Except.error e⟩ := by
  unfold SignUpUseCase.ExecuteDto
  simp only [hv]

theorem executeDto_reqValid {σ : Type} (create : σ → User → σ × User × Option Err)
    (hashResult : Except Err String) (s : σ) (req : SignUpRequestDto)
    (hv : req.Validate = none) :
    SignUpUseCase.ExecuteDto create hashResult s req =
      SignUpUseCase.ExecuteContract create hashResult s ⟨req.email, req.password⟩ := by
  unfold SignUpUseCase.ExecuteDto
  simp only [hv]

theorem signUpModuleRoute_decodeError {σ : Type} (create : σ → User → σ × User × Option Err)
    (hashResult : Except Err String) (e : Err) (s : σ) :
    AuthHandler.SignUpModuleRoute create hashResult (Except.error e) s
      = ⟨s, [], ⟨400, ResponseBody.errorObj e⟩⟩ :=
  rfl

theorem signUpModuleRoute_useCaseError {σ : Type} (create : σ → User → σ × User × Option Err)
    (hashResult : Except Err String) (payload : SignUpRequestDto) (s : σ) (e : Err)
    (hres : (SignUpUseCase.ExecuteDto create hashResult s payload).result = Except.error e) :
    AuthHandler.SignUpModuleRoute create hashResult (Except.ok payload) s
      = ⟨(SignUpUseCase.ExecuteDto create hashResult s payload).state,
         (SignUpUseCase.ExecuteDto create hashResult s payload).createCalls,
         ⟨400, ResponseBody.errorObj e⟩⟩ := by
  unfold AuthHandler.SignUpModuleRoute
  simp only [hres]

theorem signUpModuleRoute_useCaseOk {σ : Type} (create : σ → User → σ × User × Option Err)
    (hashResult : Except Err String) (payload : SignUpRequestDto) (s : σ) (u : User)
    (hres : (SignUpUseCase.ExecuteDto create hashResult s payload).result = Except.ok u) :
    AuthHandler.SignUpModuleRoute create hashResult (Except.ok payload) s
      = ⟨(SignUpUseCase.ExecuteDto create hashResult s payload).state,
         (SignUpUseCase.ExecuteDto create hashResult s payload).createCalls,
         ⟨201, ResponseBody.userObj u⟩⟩ := by
  unfold AuthHandler.SignUpModuleRoute
  simp only [hres]

theorem signUpHandlers_decodeError {σ : Type} (create : σ → User → σ × User × Option Err)
    (hashResult : Except Err String) (e : Err) (s : σ) :
    AuthHandler.SignUpHandlers create hashResult (Except.error e) s
      = ⟨s, [], ⟨400, ResponseBody.errorObj e⟩⟩ :=
  rfl

theorem signUpHandlers_validateError {σ : Type} (create : σ → User → σ × User × Option Err)
    (hashResult : Except Err String) (payload : SignUpRequest) (s : σ) (e : Err)
    (hv : payload.Validate = some e) :
    AuthHandler.SignUpHandlers create hashResult (Except.ok payload) s
      = ⟨s, [], ⟨400, ResponseBody.errorObj e⟩⟩ := by
  unfold AuthHandler.SignUpHandlers
  simp only [hv]

theorem signUpHandlers_useCaseError {σ : Type} (create : σ → User → σ × User × Option Err)
    (hashResult : Except Err String) (payload : SignUpRequest) (s : σ) (e : Err)
    (hv : payload.Validate = none)
    (hres : (SignUpUseCase.ExecuteContract create hashResult s
        ⟨payload.email, payload.password⟩).result = Except.error e) :
    AuthHandler.SignUpHandlers create hashResult (Except.ok payload) s
      = ⟨(SignUpUseCase.ExecuteContract create hashResult s
            ⟨payload.email, payload.password⟩).state,
         (SignUpUseCase.ExecuteContract create hashResult s
            ⟨payload.email, payload.password⟩).createCalls,
         ⟨400, ResponseBody.errorObj e⟩⟩ := by
  unfold AuthHandler.SignUpHandlers
  simp only [hv, hres]

theorem signUpHandlers_useCaseOk {σ : Type} (create : σ → User → σ × User × Option Err)
    (hashResult : Except Err String) (payload : SignUpRequest) (s : σ) (u : User)
    (hv : payload.Validate = none)
    (hres : (SignUpUseCase.ExecuteContract create hashResult s
        ⟨payload.email, payload.password⟩).result = Except.ok u) :
    AuthHandler.SignUpHandlers create hashResult (Except.ok payload) s
      = ⟨(SignUpUseCase.ExecuteContract create hashResult s
            ⟨payload.email, payload.password⟩).state,
         (SignUpUseCase.ExecuteContract create hashResult s
            ⟨payload.email, payload.password⟩).createCalls,
         ⟨201, ResponseBody.userObj u⟩⟩ := by
  unfold AuthHandler.SignUpHandlers
  simp only [hv, hres]

theorem validPasswordVar_short (p : String) (h : p.length < 5) :
    validPasswordVar p = false := by
  unfold validPasswordVar
  have hnot : ¬ (5 ≤ p.length) := Nat.not_le_of_gt h
  simp [hnot]

theorem dtoValidate_short_password (req : SignUpRequestDto) (h : req.password.length < 5) :
    ∃ e, req.Validate = some e := by
  unfold SignUpRequestDto.Validate
  rw [validPasswordVar_short req.password h]
  by_cases hE : validEmailVar req.email
  · rw [hE]
    exact ⟨"Password failed on required,min=5", rfl⟩
  · rw [Bool.eq_false_iff.mpr hE]
    exact ⟨"Email failed on required,email", rfl⟩

theorem apiValidate_short_password (req : SignUpRequest) (h : req.password.length < 5) :
    ∃ e, req.Validate = some e := by
  unfold SignUpRequest.Validate
  rw [validPasswordVar_short req.password h]
  by_cases hE : validEmailVar req.email
  · rw [hE]
    exact ⟨"Password failed on required,min=5", rfl⟩
  · rw [Bool.eq_false_iff.mpr hE]
    exact ⟨"Email failed on required,email", rfl⟩

theorem executeContract_calls_validated {σ : Type} (create : σ → User → σ × User × Option Err)
    (hashResult : Except Err String) (s : σ) (input : SignUpInput) :
    ∀ u ∈ (SignUpUseCase.ExecuteContract create hashResult s input).createCalls,
      u.Validate = none := by
  intro u hu
  cases hashResult with
  | error e =>
    rw [executeContract_hashError] at hu
    simp at hu
  | ok hs =>
    cases hv : User.Validate { email := input.email, hashedPassword := hs } with
    | some e =>
      rw [executeContract_entityInvalid create s input hs e hv] at hu
      simp at hu
    | none =>
      rw [executeContract_entityValid create s input hs hv] at hu
      simp at hu
      rw [hu]
      exact hv

theorem executeDto_calls_validated {σ : Type} (create : σ → User → σ × User × Option Err)
    (hashResult : Except Err String) (s : σ) (req : SignUpRequestDto) :
    ∀ u ∈ (SignUpUseCase.ExecuteDto create hashResult s req).createCalls,
      u.Validate = none := by
  intro u hu
  cases hv : req.Validate with
  | some e =>
    rw [executeDto_reqInvalid create hashResult s req e hv] at hu
    simp at hu
  | none =>
    rw [executeDto_reqValid create hashResult s req hv] at hu
    exact executeContract_calls_validated create hashResult s ⟨req.email, req.password⟩ u hu

/-! Claim theorems. -/

/-- C1: Every entity the sign-up orchestrator hands to the repository
Create operation satisfies the entity self-validation rule; and whenever
the constructed entity fails its validation, Execute returns that
validation error and the trace of Create calls is empty. Stated for both
use-case variants (for the DTO-validating variant, the entity is only
constructed once the request DTO itself validated). -/
theorem c1_entity_validated_before_create {σ : Type}
    (create : σ → User → σ × User × Option Err) (hashResult : Except Err String)
    (req : SignUpRequestDto) (input : SignUpInput) (s : σ) :
    (∀ u ∈ (SignUpUseCase.ExecuteDto create hashResult s req).createCalls, u.Validate = none)
    ∧ (∀ u ∈ (SignUpUseCase.ExecuteContract create hashResult s input).createCalls,
        u.Validate = none)
    ∧ (∀ hs e, hashResult = Except.ok hs → req.Validate = none →
        User.Validate { email := req.email, hashedPassword := hs } = some e →
        (SignUpUseCase.ExecuteDto create hashResult s req).result = Except.error e
        ∧ (SignUpUseCase.ExecuteDto create hashResult s req).createCalls = [])
    ∧ (∀ hs e, hashResult = Except.ok hs →
        User.Validate { email := input.email, hashedPassword := hs } = some e →
        (SignUpUseCase.ExecuteContract create hashResult s input).result = Except.error e
        ∧ (SignUpUseCase.ExecuteContract create hashResult s input).createCalls = []) := by
  refine ⟨executeDto_calls_validated create hashResult s req,
          executeContract_calls_validated create hashResult s input, ?_, ?_⟩
  · intro hs e hh hreq hv
    subst hh
    rw [executeDto_reqValid create (Except.ok hs) s req hreq,
        executeContract_entityInvalid create s ⟨req.email, req.password⟩ hs e hv]
    exact ⟨rfl, rfl⟩
  · intro hs e hh hv
    subst hh
    rw [executeContract_entityInvalid create s input hs e hv]
    exact ⟨rfl, rfl⟩

/-- Witness for C1: with a valid request, a hash oracle answering the
empty string and a stub repository, the constructed entity fails its
validation and the DTO-variant Execute returns that error with an empty
Create trace. -/
theorem c1_entity_validated_before_create_witness :
    SignUpRequestDto.Validate ⟨"a@b.c", "longpass"⟩ = none
    ∧ User.Validate { email := "a@b.c", hashedPassword := "" }
        = some "entity hashed password is required"
    ∧ (SignUpUseCase.ExecuteDto (fun (s : Unit) (u : User) => (s, u, none)) (Except.ok "") ()
        ⟨"a@b.c", "longpass"⟩).result = Except.error "entity hashed password is required"
    ∧ (SignUpUseCase.ExecuteDto (fun (s : Unit) (u : User) => (s, u, none)) (Except.ok "") ()
        ⟨"a@b.c", "longpass"⟩).createCalls = [] := by
  refine ⟨by decide, by decide, ?_⟩
  exact (c1_entity_validated_before_create (fun (s : Unit) (u : User) => (s, u, none))
    (Except.ok "") ⟨"a@b.c", "longpass"⟩ ⟨"", ""⟩ ()).2.2.1 ""
    "entity hashed password is required" rfl (by decide) (by decide)

/-- C6: If the password hasher fails, Execute returns the hashing failure
unchanged, the repository state is untouched and no Create call occurs —
for both use-case variants (the DTO-validating variant reaches the hasher
once the request validated). -/
theorem c6_hash_failure_short_circuits {σ : Type}
    (create : σ → User → σ × User × Option Err) (e : Err)
    (req : SignUpRequestDto) (input : SignUpInput) (s : σ)
    (hreq : req.Validate = none) :
    SignUpUseCase.ExecuteContract create (Except.error e) s input = ⟨s, [], Except.error e⟩
    ∧ SignUpUseCase.ExecuteDto create (Except.error e) s req = ⟨s, [], Except.error e⟩ := by
  refine ⟨executeContract_hashError create s input e, ?_⟩
  rw [executeDto_reqValid create (Except.error e) s req hreq]
  exact executeContract_hashError create s ⟨req.email, req.password⟩ e

/-- Witness for C6 at a concrete valid request and a concrete hashing
failure. -/
theorem c6_hash_failure_short_circuits_witness :
    SignUpRequestDto.Validate ⟨"a@b.c", "abcdef"⟩ = none
    ∧ SignUpUseCase.ExecuteDto (fun (s : Unit) (u : User) => (s, u, none))
        (Except.error "bcrypt failure") () ⟨"a@b.c", "abcdef"⟩
      = ⟨(), [], Except.error "bcrypt failure"⟩ := by
  refine ⟨by decide, ?_⟩
  exact (c6_hash_failure_short_circuits (fun (s : Unit) (u : User) => (s, u, none))
    "bcrypt failure" ⟨"a@b.c", "abcdef"⟩ ⟨"", ""⟩ () (by decide)).2

/-- C10: The contract-based Execute applies no password rule of its own:
for any non-empty, email-shaped email and any successful hash outcome
(bcrypt outputs are non-empty), it succeeds and hands exactly one entity
to the in-memory adapter Create, whatever the password — including the
empty password. -/
theorem c10_contract_variant_ignores_password_length (g : UuidGen)
    (email password hs : String)
    (he1 : email ≠ "") (he2 : isEmailFormat email = true) (hh : hs ≠ "") :
    (SignUpUseCase.ExecuteContract UserRepository.Create (Except.ok hs) g
        ⟨email, password⟩).result
      = Except.ok { id := g.stream g.count, email := email.toLower, hashedPassword := hs }
    ∧ (SignUpUseCase.ExecuteContract UserRepository.Create (Except.ok hs) g
        ⟨email, password⟩).createCalls = [{ email := email, hashedPassword := hs }] := by
  have hv : User.Validate { email := email, hashedPassword := hs } = none := by
    unfold User.Validate validEmailVar requiredNonEmpty
    simp [he1, he2, hh]
  rw [executeContract_entityValid UserRepository.Create g ⟨email, password⟩ hs hv]
  exact ⟨rfl, rfl⟩

/-- Witness for C10: the empty password signs up successfully through the
contract-based variant backed by the in-memory adapter. -/
theorem c10_contract_variant_ignores_password_length_witness :
    ("a@b.c" : String) ≠ ""
    ∧ isEmailFormat "a@b.c" = true
    ∧ ("$2a$10$stubhash" : String) ≠ ""
    ∧ (SignUpUseCase.ExecuteContract UserRepository.Create (Except.ok "$2a$10$stubhash")
        ⟨fun n => n + 1, 0⟩ ⟨"a@b.c", ""⟩).result
      = Except.ok { id := 1, email := ("a@b.c" : String).toLower,
                    hashedPassword := "$2a$10$stubhash" } := by
  refine ⟨by decide, by decide, by decide, ?_⟩
  exact (c10_contract_variant_ignores_password_length ⟨fun n => n + 1, 0⟩ "a@b.c" ""
    "$2a$10$stubhash" (by decide) (by decide) (by decide)).1

/-- C2: A decoded sign-up request whose password is shorter than 5
characters yields a 400 response with an empty trace of repository Create
calls — in both pipelines (module_route pipeline, where the DTO-validating
use case rejects it; handlers pipeline, where the handler-level validation
rejects it before the use case). -/
theorem c2_short_password_rejected {σ : Type}
    (create : σ → User → σ × User × Option Err) (hashResult : Except Err String)
    (payloadDto : SignUpRequestDto) (payloadApi : SignUpRequest) (s : σ)
    (h1 : payloadDto.password.length < 5) (h2 : payloadApi.password.length < 5) :
    ((AuthHandler.SignUpModuleRoute create hashResult (Except.ok payloadDto) s).response.status
        = 400
      ∧ (AuthHandler.SignUpModuleRoute create hashResult (Except.ok payloadDto) s).createCalls
        = [])
    ∧ ((AuthHandler.SignUpHandlers create hashResult (Except.ok payloadApi) s).response.status
        = 400
      ∧ (AuthHandler.SignUpHandlers create hashResult (Except.ok payloadApi) s).createCalls
        = []) := by
  obtain ⟨e1, he1⟩ := dtoValidate_short_password payloadDto h1
  obtain ⟨e2, he2⟩ := apiValidate_short_password payloadApi h2
  have hd : SignUpUseCase.ExecuteDto create hashResult s payloadDto
      = ⟨s, [], Except.error e1⟩ :=
    executeDto_reqInvalid create hashResult s payloadDto e1 he1
  have hres : (SignUpUseCase.ExecuteDto create hashResult s payloadDto).result
      = Except.error e1 := by
    rw [hd]
  refine ⟨⟨?_, ?_⟩, ?_, ?_⟩
  · rw [signUpModuleRoute_useCaseError create hashResult payloadDto s e1 hres]
  · rw [signUpModuleRoute_useCaseError create hashResult payloadDto s e1 hres, hd]
  · rw [signUpHandlers_validateError create hashResult payloadApi s e2 he2]
  · rw [signUpHandlers_validateError create hashResult payloadApi s e2 he2]

/-- Witness for C2 with concrete short passwords through both handlers,
backed by the in-memory adapter. -/
theorem c2_short_password_rejected_witness :
    ("abc" : String).length < 5
    ∧ ("1234" : String).length < 5
    ∧ (AuthHandler.SignUpModuleRoute UserRepository.Create (Except.ok "HASH")
        (Except.ok ⟨"a@b.c", "abc"⟩) ⟨fun n => n, 0⟩).response.status = 400
    ∧ (AuthHandler.SignUpModuleRoute UserRepository.Create (Except.ok "HASH")
        (Except.ok ⟨"a@b.c", "abc"⟩) ⟨fun n => n, 0⟩).createCalls = []
    ∧ (AuthHandler.SignUpHandlers UserRepository.Create (Except.ok "HASH")
        (Except.ok ⟨"x@y.z", "1234"⟩) ⟨fun n => n, 0⟩).response.status = 400
    ∧ (AuthHandler.SignUpHandlers UserRepository.Create (Except.ok "HASH")
        (Except.ok ⟨"x@y.z", "1234"⟩) ⟨fun n => n, 0⟩).createCalls = [] := by
  have h := c2_short_password_rejected UserRepository.Create (Except.ok "HASH")
    ⟨"a@b.c", "abc"⟩ ⟨"x@y.z", "1234"⟩ ⟨fun n => n, 0⟩ (by decide) (by decide)
  exact ⟨by decide, by decide, h.1.1, h.1.2, h.2.1, h.2.2⟩

/-- C5: Both SignUp handlers map outcomes exhaustively: a decode error, a
handler-level validation error or a use-case error each produce 400 with
the error object body; a use-case success produces 201 with the persisted
entity as body; and every response has status 400 or 201. -/
theorem c5_handler_outcome_mapping {σ : Type}
    (create : σ → User → σ × User × Option Err) (hashResult : Except Err String)
    (decodedDto : Except Err SignUpRequestDto) (decodedApi : Except Err SignUpRequest)
    (s : σ) :
    (∀ e, decodedDto = Except.error e →
      (AuthHandler.SignUpModuleRoute create hashResult decodedDto s).response
        = ⟨400, ResponseBody.errorObj e⟩)
    ∧ (∀ p e, decodedDto = Except.ok p →
        (SignUpUseCase.ExecuteDto create hashResult s p).result = Except.error e →
        (AuthHandler.SignUpModuleRoute create hashResult decodedDto s).response
          = ⟨400, ResponseBody.errorObj e⟩)
    ∧ (∀ p u, decodedDto = Except.ok p →
        (SignUpUseCase.ExecuteDto create hashResult s p).result = Except.ok u →
        (AuthHandler.SignUpModuleRoute create hashResult decodedDto s).response
          = ⟨201, ResponseBody.userObj u⟩)
    ∧ ((AuthHandler.SignUpModuleRoute create hashResult decodedDto s).response.status = 400
        ∨ (AuthHandler.SignUpModuleRoute create hashResult decodedDto s).response.status = 201)
    ∧ (∀ e, decodedApi = Except.error e →
        (AuthHandler.SignUpHandlers create hashResult decodedApi s).response
          = ⟨400, ResponseBody.errorObj e⟩)
    ∧ (∀ p e, decodedApi = Except.ok p → p.Validate = some e →
        (AuthHandler.SignUpHandlers create hashResult decodedApi s).response
          = ⟨400, ResponseBody.errorObj e⟩)
    ∧ (∀ p e, decodedApi = Except.ok p → p.Validate = none →
        (SignUpUseCase.ExecuteContract create hashResult s ⟨p.email, p.password⟩).result
          = Except.error e →
        (AuthHandler.SignUpHandlers create hashResult decodedApi s).response
          = ⟨400, ResponseBody.errorObj e⟩)
    ∧ (∀ p u, decodedApi = Except.ok p → p.Validate = none →
        (SignUpUseCase.ExecuteContract create hashResult s ⟨p.email, p.password⟩).result
          = Except.ok u →
        (AuthHandler.SignUpHandlers create hashResult decodedApi s).response
          = ⟨201, ResponseBody.userObj u⟩)
    ∧ ((AuthHandler.SignUpHandlers create hashResult decodedApi s).response.status = 400
        ∨ (AuthHandler.SignUpHandlers create hashResult decodedApi s).response.status = 201)
    := by
  refine ⟨?_, ?_, ?_, ?_, ?_, ?_, ?_, ?_, ?_⟩
  · intro e hd
    subst hd
    rw [signUpModuleRoute_decodeError]
  · intro p e hd hres
    subst hd
    rw [signUpModuleRoute_useCaseError create hashResult p s e hres]
  · intro p u hd hres
    subst hd
    rw [signUpModuleRoute_useCaseOk create hashResult p s u hres]
  · cases decodedDto with
    | error e =>
      left
      rw [signUpModuleRoute_decodeError]
    | ok p =>
      cases hres : (SignUpUseCase.ExecuteDto create hashResult s p).result with
      | error e =>
        left
        rw [signUpModuleRoute_useCaseError create hashResult p s e hres]
      | ok u =>
        right
        rw [signUpModuleRoute_useCaseOk create hashResult p s u hres]
  · intro e hd
    subst hd
    rw [signUpHandlers_decodeError]
  · intro p e hd hv
    subst hd
    rw [signUpHandlers_validateError create hashResult p s e hv]
  · intro p e hd hv hres
    subst hd
    rw [signUpHandlers_useCaseError create hashResult p s e hv hres]
  · intro p u hd hv hres
    subst hd
    rw [signUpHandlers_useCaseOk create hashResult p s u hv hres]
  · cases decodedApi with
    | error e =>
      left
      rw [signUpHandlers_decodeError]
    | ok p =>
      cases hv : p.Validate with
      | some e =>
        left
        rw [signUpHandlers_validateError create hashResult p s e hv]
      | none =>
        cases hres : (SignUpUseCase.ExecuteContract create hashResult s
            ⟨p.email, p.password⟩).result with
        | error e =>
          left
          rw [signUpHandlers_useCaseError create hashResult p s e hv hres]
        | ok u =>
          right
          rw [signUpHandlers_useCaseOk create hashResult p s u hv hres]

/-- Witness for C5: a concrete decode failure maps to 400 with the error
object, and a concrete valid request through the handlers pipeline maps to
201 carrying the persisted entity. -/
theorem c5_handler_outcome_mapping_witness :
    (AuthHandler.SignUpModuleRoute UserRepository.Create (Except.ok "HASH")
        (Except.error "malformed body") ⟨fun n => n, 0⟩).response
      = ⟨400, ResponseBody.errorObj "malformed body"⟩
    ∧ (AuthHandler.SignUpHandlers UserRepository.Create (Except.ok "HASH")
        (Except.ok ⟨"a@b.c", "abcdef"⟩) ⟨fun n => n, 0⟩).response
      = ⟨201, ResponseBody.userObj
          { id := 0, email := ("a@b.c" : String).toLower, hashedPassword := "HASH" }⟩ := by
  have h := c5_handler_outcome_mapping UserRepository.Create (Except.ok "HASH")
    (Except.error "malformed body") (Except.ok ⟨"a@b.c", "abcdef"⟩) ⟨fun n => n, 0⟩
  exact ⟨h.1 "malformed body" rfl,
    h.2.2.2.2.2.2.2.1 ⟨"a@b.c", "abcdef"⟩
      { id := 0, email := ("a@b.c" : String).toLower, hashedPassword := "HASH" }
      rfl (by decide) rfl⟩

/-- C3: The in-memory adapter Create always returns no error and an
entity carrying the identifier freshly drawn from the uuid source; under
the freshness model of the random uuid draw (the drawn identifier differs
from the caller-supplied one and from every previously issued one), the
returned identifier is new, and two sequential calls with the same
candidate return two distinct identifiers. -/
theorem c3_create_fresh_identifier (g : UuidGen) (du : User) :
    (UserRepository.Create g du).2.2 = none
    ∧ (UserRepository.Create g du).2.1.id = g.stream g.count
    ∧ (g.stream g.count ≠ du.id → (UserRepository.Create g du).2.1.id ≠ du.id)
    ∧ (∀ i, i < g.count → g.stream i ≠ g.stream g.count →
        (UserRepository.Create g du).2.1.id ≠ g.stream i)
    ∧ (g.stream g.count ≠ g.stream (g.count + 1) →
        (UserRepository.Create (UserRepository.Create g du).1 du).2.1.id
          ≠ (UserRepository.Create g du).2.1.id) := by
  refine ⟨rfl, rfl, fun h => h, ?_, ?_⟩
  · intro i _ hne hc
    exact hne hc.symm
  · intro hne hc
    exact hne hc.symm

/-- Witness for C3 at a concrete uuid source and candidate: no error, the
fresh identifier differs from the caller-supplied one, and sequential
calls yield distinct identifiers. -/
theorem c3_create_fresh_identifier_witness :
    (UserRepository.Create ⟨fun n => n, 0⟩
        { id := 5, email := "A@b.c", hashedPassword := "h" }).2.2 = none
    ∧ (UserRepository.Create ⟨fun n => n, 0⟩
        { id := 5, email := "A@b.c", hashedPassword := "h" }).2.1.id ≠ 5
    ∧ (UserRepository.Create
        (UserRepository.Create ⟨fun n => n, 0⟩
          { id := 5, email := "A@b.c", hashedPassword := "h" }).1
        { id := 5, email := "A@b.c", hashedPassword := "h" }).2.1.id
      ≠ (UserRepository.Create ⟨fun n => n, 0⟩
          { id := 5, email := "A@b.c", hashedPassword := "h" }).2.1.id := by
  have h := c3_create_fresh_identifier ⟨fun n => n, 0⟩
    { id := 5, email := "A@b.c", hashedPassword := "h" }
  exact ⟨h.1, h.2.2.1 (by decide), h.2.2.2.2 (by decide)⟩

/-- C4: The entity returned by the in-memory adapter Create carries the
lowercased candidate email and the unchanged candidate hashed password;
its identifier is the fresh draw and its timestamps are unset, and the
result does not depend on the caller-supplied id or timestamps at all. -/
theorem c4_create_normalizes_email_discards_rest (g : UuidGen) (du : User) :
    (UserRepository.Create g du).2.1.email = du.email.toLower
    ∧ (UserRepository.Create g du).2.1.hashedPassword = du.hashedPassword
    ∧ (UserRepository.Create g du).2.1.id = g.stream g.count
    ∧ (UserRepository.Create g du).2.1.createdAt = none
    ∧ (UserRepository.Create g du).2.1.updatedAt = none
    ∧ (∀ du2 : User, du2.email = du.email → du2.hashedPassword = du.hashedPassword →
        UserRepository.Create g du2 = UserRepository.Create g du) := by
  refine ⟨rfl, rfl, rfl, rfl, rfl, ?_⟩
  intro du2 he hp
  simp [UserRepository.Create, UuidGen.new, he, hp]

/-- Witness for C4: two candidates differing only in caller-supplied id
and timestamps are persisted identically. -/
theorem c4_create_normalizes_email_discards_rest_witness :
    ({ id := 7, email := "A@B.c", hashedPassword := "h", createdAt := some 3,
        updatedAt := some 4 } : User).email
      = ({ id := 0, email := "A@B.c", hashedPassword := "h" } : User).email
    ∧ UserRepository.Create ⟨fun n => n, 2⟩
        { id := 7, email := "A@B.c", hashedPassword := "h", createdAt := some 3,
          updatedAt := some 4 }
      = UserRepository.Create ⟨fun n => n, 2⟩
        { id := 0, email := "A@B.c", hashedPassword := "h" } := by
  have h := c4_create_normalizes_email_discards_rest ⟨fun n => n, 2⟩
    { id := 0, email := "A@B.c", hashedPassword := "h" }
  exact ⟨rfl, h.2.2.2.2.2
    { id := 7, email := "A@B.c", hashedPassword := "h", createdAt := some 3,
      updatedAt := some 4 } rfl rfl⟩

/-- C9: The entity returned by the in-memory adapter Create always has
unset createdAt and updatedAt (the adapter builds the result from only the
fresh id, the lowercased email and the hashed password). -/
theorem c9_create_timestamps_unset (g : UuidGen) (du : User) :
    (UserRepository.Create g du).2.1.createdAt = none
    ∧ (UserRepository.Create g du).2.1.updatedAt = none :=
  ⟨rfl, rfl⟩

/-- C7: For every GET request to /health, whatever the sign-up handler
outcome (the only container state a request could observe), the router
dispatches to the inline health handler, which responds 200 with body ok.
-/
theorem c7_health_route (signUpResponse : HttpResponse) :
    NewRouter.dispatch signUpResponse Method.GET "/health"
      = some ⟨200, ResponseBody.text "ok"⟩ :=
  rfl

/-- C8: StartRestAPI gives in-flight requests a 10 second shutdown window
on cancellation; it returns nil when shutdown completes within the window,
wraps a shutdown failure with the server shutdown prefix, returns a fatal
listener error unchanged when it arrives first, and the listener goroutine
never reports the closed-by-shutdown error as fatal. -/
theorem c8_lifecycle_shutdown :
    shutdownTimeoutSeconds = 10
    ∧ StartRestAPI (LifecycleEvent.ctxDone none) = none
    ∧ (∀ e : Err, StartRestAPI (LifecycleEvent.ctxDone (some e))
        = some ("server shutdown: " ++ e))
    ∧ (∀ e : Err, StartRestAPI (LifecycleEvent.listenerFatal e) = some e)
    ∧ (∀ e : Err, listenerForwards (some e) true = none)
    ∧ (∀ b : Bool, listenerForwards none b = none) :=
  ⟨rfl, rfl, fun _ => rfl, fun _ => rfl, fun _ => rfl, fun _ => rfl⟩

end GoApp
